import Mathlib

/-!
# DiceFS (`exist.py`): a shallow embedding in Lean 4

`exist.py` implements a randomized FUSE filesystem: a path `/exist/<x>` exists,
on any given query, with probability `x` (its filename parsed as a float in
`[0, 1]`).  All metadata is freshly randomized per call.

This file embeds the core operation handlers (`_exists`, `access`, `getattr`,
`readdir`, `statfs`, and the `_size`/`_timestamp`/`_mode`/`_id` helpers) as
executable Lean functions and proves the specified properties about them.

Modelling decisions:

* Python's global `random` module is modelled as an explicit state `RNG`:
  a stream of naturals together with a cursor.  Each primitive call
  (`random.random`, `random.randint`, `random.uniform`) consumes exactly one
  element of the stream, mirroring "one draw from the shared source".
  CPython's `random.random()` returns `k / 2^53` with `k` uniform in
  `[0, 2^53)`; the model realizes the draw as `mkRat (stream idx % 2^53) 2^53`,
  so every draw is a rational in `[0, 1)` and the exact-zero draw remains
  possible.  `random.randint(a, b)` returns an integer in the closed range
  `[a, b]`; the model realizes it as `a + stream idx % (b - a + 1)`.
  `random.uniform(a, b)` is `a + (b - a) * random()`, as in CPython.
* Python floats are modelled as exact rationals (`ℚ`).  Python's `float(s)`
  parser is modelled by `pyFloatL`: optional surrounding whitespace, optional
  sign, decimal digits with underscores allowed between digits, optional
  fractional part, optional decimal exponent.  The special spellings
  `inf`/`infinity`/`nan` (which are non-finite and in the source always fail
  the `0 <= p <= 1` range check) are modelled as parse failures: both
  roads classify the path as never-existing, so the embedded `_exists` is
  observably equal to the source's on such paths.  Rounding of decimal
  literals to binary doubles is not modelled; all literals exercised here are
  exactly representable.
* Process identity (`os.getuid`/`os.getgid`) and the clock (`time.time()`)
  are ambient inputs of the process; they are passed to `getattr` as explicit
  parameters `uid`, `gid`, `now`.
* A raised `FuseOSError(e)` is an `Except.error e` result; falling off the end
  of a handler (Python `return None`) is `Except.ok ()`.
* Python dicts with fixed string keys (`getattr`'s attribute record,
  `statfs`'s record) are association lists in insertion order; the
  heterogeneous values of the attribute dict (ints and floats) are the tagged
  type `AttrVal`.
* `str(random.random())` in `readdir` is rendered by `pyStr`; the exact
  decimal rendering of a double is not semantically relevant here, only that
  the third listing entry is the textual form of the fresh draw.
-/

/-- The state of Python's process-wide `random` source: an infinite supply of
raw naturals and a cursor.  Each primitive draw consumes one element. -/
structure RNG where
  stream : ℕ → ℕ
  idx : ℕ

/-- Consume one raw element of the random stream. -/
def RNG.next (g : RNG) : ℕ × RNG :=
  (g.stream g.idx, ⟨g.stream, g.idx + 1⟩)

/-- `random.random()`: a uniform draw in `[0, 1)`.  CPython returns `k / 2^53`
with `k` a 53-bit integer, which the model mirrors exactly. -/
def randomFloat (g : RNG) : ℚ × RNG :=
  let n := g.next
  (mkRat (Int.ofNat (n.1 % 2 ^ 53)) (2 ^ 53), n.2)

/-- `random.randint(a, b)`: a uniform integer draw in the closed range
`[a, b]` (both endpoints included, per the Python documentation). -/
def randint (a b : ℕ) (g : RNG) : ℕ × RNG :=
  let n := g.next
  (a + n.1 % (b - a + 1), n.2)

/-- `random.uniform(a, b)`: CPython computes `a + (b - a) * random()`. -/
def uniform (a b : ℚ) (g : RNG) : ℚ × RNG :=
  let r := randomFloat g
  (a + (b - a) * r.1, r.2)

/-- The abstract failure kinds raised by the handlers (`FuseOSError(e)`),
plus the host binding's response for operations with no handler. -/
inductive FuseError where
  | EACCES
  | ENOENT
  deriving DecidableEq, Repr

/-- `os.W_OK`: the write-intent bit of an `access` mode bitmask. -/
def W_OK : ℕ := 2

/-- `stat.S_IFDIR`: the directory bit of `st_mode`. -/
def S_IFDIR : ℕ := 0o040000

/-- A value of the `getattr` attribute dict: Python mixes ints
(ids, mode, link count, size) and floats (timestamps) in one dict. -/
inductive AttrVal where
  | i (n : ℕ)
  | t (x : ℚ)
  deriving DecidableEq, Repr

/-- One run of decimal digits, with single underscores permitted between
digits (Python numeric-literal syntax).  Returns the accumulated value, the
number of digits consumed, and the unconsumed remainder.  `cnt` tracks digits
already consumed so that a leading underscore is never accepted. -/
def pyDigitsAux : ℕ → ℕ → List Char → ℕ × ℕ × List Char
  | acc, cnt, [] => (acc, cnt, [])
  | acc, cnt, [c] =>
      if c.isDigit then (10 * acc + (c.toNat - 48), cnt + 1, [])
      else (acc, cnt, [c])
  | acc, cnt, c :: d :: rest =>
      if c.isDigit then pyDigitsAux (10 * acc + (c.toNat - 48)) (cnt + 1) (d :: rest)
      else if cnt ≠ 0 ∧ c = '_' ∧ d.isDigit then
        pyDigitsAux (10 * acc + (d.toNat - 48)) (cnt + 1) rest
      else (acc, cnt, c :: d :: rest)

/-- Whitespace stripped by Python's `float` around a literal. -/
def isPySpace (c : Char) : Bool :=
  c = ' ' ∨ c = '\t' ∨ c = '\n' ∨ c = '\r' ∨ c = '\x0b' ∨ c = '\x0c'

/-- Assemble the exact rational value of a parsed decimal literal:
sign `sgn`, integer digits of value `ip`, fractional digits of value `fp`
(`fc` of them), decimal exponent `ex`. -/
def buildRat (sgn : ℤ) (ip fp : ℕ) (fc : ℕ) (ex : ℤ) : ℚ :=
  let mant : ℤ := sgn * ((ip : ℤ) * 10 ^ fc + (fp : ℤ))
  let e : ℤ := ex - (fc : ℤ)
  if 0 ≤ e then mkRat (mant * 10 ^ e.toNat) 1
  else mkRat mant (10 ^ (-e).toNat)

/-- Python's `float(s)` on a list of characters, as an exact rational.
`none` is a `ValueError` (and also stands for the non-finite spellings
`inf`/`nan`, see the header comment). -/
def pyFloatL (s : List Char) : Option ℚ :=
  let l0 := ((s.dropWhile isPySpace).reverse.dropWhile isPySpace).reverse
  let sl : ℤ × List Char :=
    match l0 with
    | '+' :: rest => (1, rest)
    | '-' :: rest => (-1, rest)
    | _ => (1, l0)
  let ipart := pyDigitsAux 0 0 sl.2
  let fpart : ℕ × ℕ × List Char :=
    match ipart.2.2 with
    | '.' :: rest => pyDigitsAux 0 0 rest
    | _ => (0, 0, ipart.2.2)
  if ipart.2.1 + fpart.2.1 = 0 then none
  else
    match fpart.2.2 with
    | [] => some (buildRat sl.1 ipart.1 fpart.1 fpart.2.1 0)
    | c :: rest =>
      if c = 'e' ∨ c = 'E' then
        let esl : ℤ × List Char :=
          match rest with
          | '+' :: r2 => (1, r2)
          | '-' :: r2 => (-1, r2)
          | _ => (1, rest)
        let epart := pyDigitsAux 0 0 esl.2
        if epart.2.1 = 0 then none
        else if epart.2.2 = [] then
          some (buildRat sl.1 ipart.1 fpart.1 fpart.2.1 (esl.1 * (epart.1 : ℤ)))
        else none
      else none

/-- Python's `float(s)` on a string. -/
def pyFloat (s : String) : Option ℚ :=
  pyFloatL s.toList

/-- The category a path string falls into; the spec's `PathCategory`.
Classification is pure: `Root` and `ExistDirectory` for the two literal
directory paths, `probabilityEntry p` for `/exist/<x>` with `x` parsing to
`p ∈ [0, 1]`, `invalid` otherwise. -/
inductive PathCategory where
  | root
  | existDir
  | probabilityEntry (p : ℚ)
  | invalid
  deriving DecidableEq, Repr

/-- The spec's `PathClassifier`, mirroring the tests `_exists` performs in
order: the two literal directory paths, the `"/exist/"` prefix (`path[:7]`),
`float` parsing of the remainder (`path[7:]`), and the `0 <= p <= 1` range
check. -/
def classify (path : String) : PathCategory :=
  if path = "/" then .root
  else if path = "/exist" then .existDir
  else if path.toList.take 7 ≠ "/exist/".toList then .invalid
  else
    match pyFloatL (path.toList.drop 7) with
    | none => .invalid
    | some p => if 0 ≤ p ∧ p ≤ 1 then .probabilityEntry p else .invalid

/-- The textual form of a drawn value, standing for Python's `str()` of the
float in `readdir` (the exact decimal rendering is not semantically
relevant here). -/
def pyStr (q : ℚ) : String :=
  toString q.num ++ "/" ++ toString q.den

namespace Exist

/-- `Exist._exists`: the dice-rolling existence check.
Source:
```
if (path in ('/', '/exist')): return True
if (path[:7] != '/exist/'): return False
filename = path[7:]
try: probability = float(filename)
except ValueError: return False
if (not (0 <= probability <= 1)): return False
rand = random.random()
return (rand <= probability)
``` -/
def _exists (path : String) (g : RNG) : Bool × RNG :=
  if path = "/" ∨ path = "/exist" then (true, g)
  else if path.toList.take 7 ≠ "/exist/".toList then (false, g)
  else
    match pyFloatL (path.toList.drop 7) with
    | none => (false, g)
    | some probability =>
      if ¬ (0 ≤ probability ∧ probability ≤ 1) then (false, g)
      else
        let rand := randomFloat g
        (decide (rand.1 ≤ probability), rand.2)

/-- `Exist._mode`: three `randint(0, 7)` draws combined into a permission
triple (defined in the source but unused by the current `getattr`). -/
def _mode (g : RNG) : ℕ × RNG :=
  let user := randint 0 7 g
  let group := randint 0 7 user.2
  let world := randint 0 7 group.2
  ((user.1 <<< 6) ||| (group.1 <<< 3) ||| world.1, world.2)

/-- `Exist._size`: `random.randint(0, 2**30)`. -/
def _size (g : RNG) : ℕ × RNG :=
  randint 0 (2 ^ 30) g

/-- `Exist._timestamp`: `random.uniform(0, time.time())`; the ambient clock
is the parameter `now`. -/
def _timestamp (now : ℚ) (g : RNG) : ℚ × RNG :=
  uniform 0 now g

/-- `Exist._id`: `random.randint(1, 10**5)` (defined in the source but unused
by the current `getattr`). -/
def _id (g : RNG) : ℕ × RNG :=
  randint 1 (10 ^ 5) g

/-- `Exist.access`: succeed (return) on the two literal directory paths,
deny any write intent, otherwise roll the dice. -/
def access (path : String) (mode : ℕ) (g : RNG) : Except FuseError Unit × RNG :=
  if path = "/" ∨ path = "/exist" then (Except.ok (), g)
  else if mode &&& W_OK ≠ 0 then (Except.error FuseError.EACCES, g)
  else
    let e := _exists path g
    if ¬ e.1 then (Except.error FuseError.EACCES, e.2) else (Except.ok (), e.2)

/-- `Exist.getattr`: `ENOENT` when the dice say the path does not exist;
otherwise a fresh attribute dict (keys in the source's insertion order,
draws in the source's evaluation order: three timestamps, then the size).
`uid`/`gid` are the process identity (`os.getuid`/`os.getgid`), `fh` the
unused file-handle parameter. -/
def getattr (uid gid : ℕ) (now : ℚ) (path : String) (fh : Option ℕ) (g : RNG) :
    Except FuseError (List (String × AttrVal)) × RNG :=
  let e := _exists path g
  if ¬ e.1 then (Except.error FuseError.ENOENT, e.2)
  else
    let t1 := _timestamp now e.2
    let t2 := _timestamp now t1.2
    let t3 := _timestamp now t2.2
    let sz := _size t3.2
    (Except.ok [("st_atime", AttrVal.t t1.1),
                ("st_ctime", AttrVal.t t2.1),
                ("st_mtime", AttrVal.t t3.1),
                ("st_gid", AttrVal.i gid),
                ("st_uid", AttrVal.i uid),
                ("st_mode", AttrVal.i (S_IFDIR ||| 0o775)),
                ("st_nlink", AttrVal.i 1),
                ("st_size", AttrVal.i sz.1)], sz.2)

/-- `Exist.readdir`: the fixed listing for the root, else a random third
entry.  `fh` is the unused file-handle parameter. -/
def readdir (path : String) (fh : ℕ) (g : RNG) : List String × RNG :=
  if path = "/" then (["." , "..", "exist"], g)
  else
    let r := randomFloat g
    (["." , "..", pyStr r.1], r.2)

/-- The ten keys of the `statfs` record, in the source's tuple order. -/
def statfsKeys : List String :=
  ["f_bavail", "f_bfree", "f_blocks", "f_bsize", "f_favail", "f_ffree",
   "f_files", "f_flag", "f_frsize", "f_namemax"]

/-- One `_size()` draw per key, in key order (the generator expression in
the source evaluates `self._size()` once per key). -/
def drawSizes : List String → RNG → List (String × ℕ) × RNG
  | [], g => ([], g)
  | k :: ks, g =>
      let s := _size g
      let rest := drawSizes ks s.2
      ((k, s.1) :: rest.1, rest.2)

/-- `Exist.statfs`: totally random sizes for all ten fields. -/
def statfs (path : String) (g : RNG) : List (String × ℕ) × RNG :=
  drawSizes statfsKeys g

/-- The full operation surface of the FUSE `Operations` interface that
`exist.py` touches: the four implemented handlers plus the twenty-one
attributes the class body sets to `None`. -/
inductive OpName where
  | access | getattr | readdir | statfs
  | chmod | chown | create | flush | fsync | getxattr | link | listxattr
  | mkdir | mknod | «open» | read | readlink | release | rename | rmdir
  | symlink | truncate | unlink | utimens | write
  deriving DecidableEq, Repr

/-- `true` exactly for the operation attributes the source sets to `None`
("Not implemented (unnecessary)"), so that no handler exists for them. -/
def nullified : OpName → Bool
  | .chmod | .chown | .create | .flush | .fsync | .getxattr | .link
  | .listxattr | .mkdir | .mknod | .«open» | .read | .readlink | .release
  | .rename | .rmdir | .symlink | .truncate | .unlink | .utimens | .write => true
  | .access | .getattr | .readdir | .statfs => false

/-- The host binding's catch-all failure for an operation with no handler. -/
inductive HostFailure where
  | Unsupported
  deriving DecidableEq, Repr

/-- Modelled from the spec: the host filesystem binding (the FUSE layer, not
part of this repository's source) surfaces an operation whose handler
attribute is `None` as an "operation not permitted/implemented" failure,
performing no work in the core. -/
def hostDispatch (op : OpName) : Option HostFailure :=
  if nullified op then some HostFailure.Unsupported else none

end Exist

/-- A concrete random source for witnesses: every raw draw is `0`. -/
def rng0 : RNG := ⟨fun _ => 0, 0⟩

theorem randomFloat_eq (g : RNG) :
    (randomFloat g).1 = ((g.stream g.idx % 2 ^ 53 : ℕ) : ℚ) / ((2 ^ 53 : ℕ) : ℚ) := by
  show mkRat (Int.ofNat (g.stream g.idx % 2 ^ 53)) (2 ^ 53) = _
  rw [Rat.mkRat_eq_divInt, Rat.divInt_eq_div, Int.ofNat_eq_natCast]
  simp only [Int.cast_natCast]

theorem randomFloat_nonneg (g : RNG) : 0 ≤ (randomFloat g).1 := by
  rw [randomFloat_eq]
  positivity

theorem randomFloat_lt_one (g : RNG) : (randomFloat g).1 < 1 := by
  rw [randomFloat_eq, div_lt_one (by positivity)]
  exact_mod_cast Nat.mod_lt _ (by positivity)

theorem randomFloat_snd (g : RNG) : (randomFloat g).2 = ⟨g.stream, g.idx + 1⟩ := rfl

theorem randint_le {a b : ℕ} (h : a ≤ b) (g : RNG) : (randint a b g).1 ≤ b := by
  show a + g.stream g.idx % (b - a + 1) ≤ b
  have h2 : g.stream g.idx % (b - a + 1) < b - a + 1 := Nat.mod_lt _ (Nat.succ_pos _)
  omega

theorem _size_le (g : RNG) : (Exist._size g).1 ≤ 2 ^ 30 :=
  randint_le (Nat.zero_le _) g

/-- Core fact: on a path outside the two literal directories whose remainder
fails classification (wrong prefix, unparsable, or out-of-range probability),
`_exists` returns `false` and does not touch the random source. -/
theorem exists_invalid_core (path : String) (g : RNG)
    (h1 : path ≠ "/") (h2 : path ≠ "/exist")
    (h : path.toList.take 7 ≠ "/exist/".toList ∨
         pyFloatL (path.toList.drop 7) = none ∨
         ∃ p, pyFloatL (path.toList.drop 7) = some p ∧ ¬ (0 ≤ p ∧ p ≤ 1)) :
    Exist._exists path g = (false, g) := by
  unfold Exist._exists
  rw [if_neg (by tauto)]
  by_cases h4 : path.toList.take 7 ≠ "/exist/".toList
  · rw [if_pos h4]
  · rw [if_neg h4]
    rcases h with h3 | h3 | ⟨p, hp, hr⟩
    · exact absurd h3 h4
    · simp only [h3]
    · simp only [hp]
      rw [if_pos hr]

/-- Core fact: on a well-formed probability entry, `_exists` consumes exactly
one `random.random()` draw `r` and returns the verdict `r ≤ p`. -/
theorem exists_prob_core (path : String) (p : ℚ) (g : RNG)
    (h1 : path ≠ "/") (h2 : path ≠ "/exist")
    (h3 : path.toList.take 7 = "/exist/".toList)
    (hp : pyFloatL (path.toList.drop 7) = some p)
    (hr : 0 ≤ p ∧ p ≤ 1) :
    Exist._exists path g = (decide ((randomFloat g).1 ≤ p), (randomFloat g).2) := by
  unfold Exist._exists
  rw [if_neg (by tauto), if_neg (by simpa using h3)]
  simp only [hp]
  rw [if_neg (by simpa using hr)]

/-- C1 counterexample: `access` with mode `W_OK` (write intent) on the root
path `"/"` and on `"/exist"` succeeds — it does not fail with
`PermissionDenied` — because the source checks the two literal directory
paths before the write-intent check.  So the claim "fails for every path,
including root" is false at `"/"`. -/
theorem access_root_write_succeeds :
    (Exist.access "/" W_OK rng0).1 = Except.ok () ∧
    (Exist.access "/exist" W_OK rng0).1 = Except.ok () ∧
    W_OK &&& W_OK ≠ 0 :=
  ⟨rfl, rfl, by decide⟩

/-- C1 (amended): for every path other than `"/"` and `"/exist"`, any
access-mode bitmask including write intent fails with `PermissionDenied`
(leaving the random source untouched); on `"/"` and `"/exist"` the access
operation always succeeds, whatever the mode. -/
theorem access_write_denied (path : String) (mode : ℕ) (g : RNG) :
    (path ≠ "/" → path ≠ "/exist" → mode &&& W_OK ≠ 0 →
      Exist.access path mode g = (Except.error FuseError.EACCES, g)) ∧
    Exist.access "/" mode g = (Except.ok (), g) ∧
    Exist.access "/exist" mode g = (Except.ok (), g) := by
  refine ⟨?_, ?_, ?_⟩
  · intro h1 h2 hw
    unfold Exist.access
    rw [if_neg (by tauto), if_pos hw]
  · simp [Exist.access]
  · simp [Exist.access]

theorem access_write_denied_witness :
    Exist.access "/exist/0.5" 2 rng0 = (Except.error FuseError.EACCES, rng0) ∧
    Exist.access "/" 2 rng0 = (Except.ok (), rng0) :=
  ⟨(access_write_denied "/exist/0.5" 2 rng0).1 (by decide) (by decide) (by decide),
   (access_write_denied "/" 2 rng0).2.1⟩

/-- C2 counterexample: `random.randint(0, 2**30)` includes both endpoints, so
the size distribution can return `2^30` itself.  With a random source whose
every raw draw is `2^30`, every `statfs` field equals `2^30` (so the claim
"strictly less than `2^30`" fails for all ten fields), and `getattr`'s
`st_size` equals `2^30` as well. -/
theorem statfs_field_reaches_pow30 :
    (Exist.statfs "/exist/0.5" ⟨fun _ => 2 ^ 30, 0⟩).1.all
        (fun kv => decide (kv.2 < 2 ^ 30)) = false ∧
    List.lookup "st_size"
        ((Exist.getattr 0 0 (mkRat 0 1) "/" none ⟨fun _ => 2 ^ 30, 0⟩).1.toOption.getD [])
      = some (AttrVal.i (2 ^ 30)) :=
  ⟨by decide, by decide⟩

/-- C2 (amended): every draw of the size distribution lies in the closed
range `[0, 2^30]`: each of the ten `statfs` fields, and the `st_size` field
of a successful `getattr`, is an integer `≥ 0` and `≤ 2^30`, on every call. -/
theorem size_draw_bounds (path : String) (g : RNG) (uid gid : ℕ) (now : ℚ)
    (fh : Option ℕ) :
    (∀ kv ∈ (Exist.statfs path g).1, 0 ≤ kv.2 ∧ kv.2 ≤ 2 ^ 30) ∧
    ((Exist._exists path g).1 = true →
      ∃ attrs sz, (Exist.getattr uid gid now path fh g).1 = Except.ok attrs ∧
        attrs.lookup "st_size" = some (AttrVal.i sz) ∧ 0 ≤ sz ∧ sz ≤ 2 ^ 30) := by
  constructor
  · have hgen : ∀ (ks : List String) (g2 : RNG),
        ∀ kv ∈ (Exist.drawSizes ks g2).1, 0 ≤ kv.2 ∧ kv.2 ≤ 2 ^ 30 := by
      intro ks
      induction ks with
      | nil => intro g2 kv hkv; simp [Exist.drawSizes] at hkv
      | cons k ks ih =>
        intro g2 kv hkv
        simp only [Exist.drawSizes, List.mem_cons] at hkv
        rcases hkv with h | h
        · rw [h]
          exact ⟨Nat.zero_le _, _size_le g2⟩
        · exact ih _ kv h
    exact hgen Exist.statfsKeys g
  · intro h
    simp only [Exist.getattr, h, not_true_eq_false, if_false, ite_false]
    exact ⟨_, _, rfl, rfl, Nat.zero_le _, _size_le _⟩

theorem size_draw_bounds_witness :
    ((Exist.statfs "/" rng0).1.all (fun kv => decide (kv.2 ≤ 2 ^ 30)) = true) ∧
    (∃ attrs sz, (Exist.getattr 0 0 (mkRat 0 1) "/" none rng0).1 = Except.ok attrs ∧
      attrs.lookup "st_size" = some (AttrVal.i sz) ∧ 0 ≤ sz ∧ sz ≤ 2 ^ 30) :=
  ⟨List.all_eq_true.mpr fun kv hkv =>
      decide_eq_true ((size_draw_bounds "/" rng0 0 0 (mkRat 0 1) none).1 kv hkv).2,
   (size_draw_bounds "/" rng0 0 0 (mkRat 0 1) none).2 (by decide)⟩

/-- C3: for every path that is neither `"/"` nor `"/exist"`, if the path does
not start with `"/exist/"`, or the remainder after that prefix fails to parse
as a float, or it parses to a value outside `[0, 1]`, then `_exists` returns
`false` with the random source untouched — the same verdict on every call,
for every random-source state. -/
theorem exists_invalid_deterministic (path : String) (g : RNG)
    (h1 : path ≠ "/") (h2 : path ≠ "/exist")
    (h : path.toList.take 7 ≠ "/exist/".toList ∨
         pyFloatL (path.toList.drop 7) = none ∨
         ∃ p, pyFloatL (path.toList.drop 7) = some p ∧ ¬ (0 ≤ p ∧ p ≤ 1)) :
    Exist._exists path g = (false, g) :=
  exists_invalid_core path g h1 h2 h

theorem exists_invalid_deterministic_witness :
    Exist._exists "/exist/abc" rng0 = (false, rng0) ∧
    Exist._exists "/exist/2" rng0 = (false, rng0) ∧
    Exist._exists "/exist/-0.1" rng0 = (false, rng0) ∧
    Exist._exists "/foo" rng0 = (false, rng0) :=
  ⟨exists_invalid_deterministic "/exist/abc" rng0 (by decide) (by decide)
      (Or.inr (Or.inl (by decide))),
   exists_invalid_deterministic "/exist/2" rng0 (by decide) (by decide)
      (Or.inr (Or.inr ⟨2, by decide, by decide⟩)),
   exists_invalid_deterministic "/exist/-0.1" rng0 (by decide) (by decide)
      (Or.inr (Or.inr ⟨mkRat (-1) 10, by decide, by decide⟩)),
   exists_invalid_deterministic "/foo" rng0 (by decide) (by decide)
      (Or.inl (by decide))⟩

/-- C4: on a probability entry with parsed value `p ∈ [0, 1]`, `_exists`
draws exactly one uniform value `r ∈ [0, 1)` and returns the verdict
`r ≤ p`; consequently for `p = 1` (in particular the paths `"/exist/1"` and
`"/exist/1.0"`) existence is `true` on every call, and for `p = 0` existence
is `true` exactly when the draw is `0`. -/
theorem exists_probability_verdict (path : String) (p : ℚ) (g : RNG)
    (h1 : path ≠ "/") (h2 : path ≠ "/exist")
    (h3 : path.toList.take 7 = "/exist/".toList)
    (hp : pyFloatL (path.toList.drop 7) = some p)
    (h0 : 0 ≤ p) (hone : p ≤ 1) :
    (Exist._exists path g = (decide ((randomFloat g).1 ≤ p), (randomFloat g).2) ∧
      0 ≤ (randomFloat g).1 ∧ (randomFloat g).1 < 1) ∧
    (p = 1 → (Exist._exists path g).1 = true) ∧
    (p = 0 → ((Exist._exists path g).1 = true ↔ (randomFloat g).1 = 0)) ∧
    (∀ g2 : RNG, (Exist._exists "/exist/1" g2).1 = true ∧
      (Exist._exists "/exist/1.0" g2).1 = true) := by
  have hcore := exists_prob_core path p g h1 h2 h3 hp ⟨h0, hone⟩
  refine ⟨⟨hcore, randomFloat_nonneg g, randomFloat_lt_one g⟩, ?_, ?_, ?_⟩
  · rintro rfl
    rw [hcore]
    exact decide_eq_true (randomFloat_lt_one g).le
  · rintro rfl
    rw [hcore]
    simp only [decide_eq_true_eq]
    exact ⟨fun hle => le_antisymm hle (randomFloat_nonneg g), fun h0r => h0r.le⟩
  · intro g2
    have hc1 := exists_prob_core "/exist/1" 1 g2 (by decide) (by decide) (by decide)
      (by decide) (by decide)
    have hc2 := exists_prob_core "/exist/1.0" 1 g2 (by decide) (by decide) (by decide)
      (by decide) (by decide)
    rw [hc1, hc2]
    exact ⟨decide_eq_true (randomFloat_lt_one g2).le,
      decide_eq_true (randomFloat_lt_one g2).le⟩

theorem exists_probability_verdict_witness :
    (Exist._exists "/exist/0.5" rng0 =
        (decide ((randomFloat rng0).1 ≤ mkRat 1 2), (randomFloat rng0).2) ∧
      0 ≤ (randomFloat rng0).1 ∧ (randomFloat rng0).1 < 1) ∧
    (Exist._exists "/exist/1" rng0).1 = true :=
  ⟨(exists_probability_verdict "/exist/0.5" (mkRat 1 2) rng0 (by decide) (by decide)
      (by decide) (by decide) (by decide) (by decide)).1,
   ((exists_probability_verdict "/exist/0.5" (mkRat 1 2) rng0 (by decide) (by decide)
      (by decide) (by decide) (by decide) (by decide)).2.2.2 rng0).1⟩

/-- C5: the paths `"/"` and `"/exist"` always exist: `_exists` returns `true`
on them unconditionally (leaving the random source untouched), `getattr` on
them never fails with `NotFound`, and `access` on them without write intent
always succeeds — for every random-source state. -/
theorem root_and_exist_always_exist (g : RNG) (uid gid : ℕ) (now : ℚ)
    (fh : Option ℕ) (mode : ℕ) :
    Exist._exists "/" g = (true, g) ∧
    Exist._exists "/exist" g = (true, g) ∧
    (Exist.getattr uid gid now "/" fh g).1 ≠ Except.error FuseError.ENOENT ∧
    (Exist.getattr uid gid now "/exist" fh g).1 ≠ Except.error FuseError.ENOENT ∧
    (mode &&& W_OK = 0 →
      (Exist.access "/" mode g).1 = Except.ok () ∧
      (Exist.access "/exist" mode g).1 = Except.ok ()) := by
  refine ⟨by simp [Exist._exists], by simp [Exist._exists], ?_, ?_, ?_⟩
  · simp [Exist.getattr, Exist._exists]
  · simp [Exist.getattr, Exist._exists]
  · intro _
    exact ⟨by simp [Exist.access], by simp [Exist.access]⟩

theorem root_and_exist_always_exist_witness :
    Exist._exists "/" rng0 = (true, rng0) ∧
    (Exist.access "/" 0 rng0).1 = Except.ok () ∧
    (Exist.access "/exist" 0 rng0).1 = Except.ok () :=
  ⟨(root_and_exist_always_exist rng0 0 0 (mkRat 0 1) none 0).1,
   ((root_and_exist_always_exist rng0 0 0 (mkRat 0 1) none 0).2.2.2.2 (by decide)).1,
   ((root_and_exist_always_exist rng0 0 0 (mkRat 0 1) none 0).2.2.2.2 (by decide)).2⟩

/-- C6: `readdir` on `"/"` returns exactly `[".", "..", "exist"]` with the
random source untouched, on every call; on every other path it returns
`[".", "..", X]` where `X` is the textual form of one freshly drawn uniform
value in `[0, 1)` (the draw being consumed from the source). -/
theorem readdir_listing (fh : ℕ) (g : RNG) :
    Exist.readdir "/" fh g = (["." , "..", "exist"], g) ∧
    ∀ path g2, path ≠ "/" →
      Exist.readdir path fh g2 =
        (["." , "..", pyStr (randomFloat g2).1], (randomFloat g2).2) ∧
      0 ≤ (randomFloat g2).1 ∧ (randomFloat g2).1 < 1 := by
  constructor
  · simp [Exist.readdir]
  · intro path g2 hne
    refine ⟨?_, randomFloat_nonneg g2, randomFloat_lt_one g2⟩
    unfold Exist.readdir
    rw [if_neg hne]

theorem readdir_listing_witness :
    Exist.readdir "/" 0 rng0 = (["." , "..", "exist"], rng0) ∧
    (Exist.readdir "/exist" 0 rng0 =
        (["." , "..", pyStr (randomFloat rng0).1], (randomFloat rng0).2) ∧
      0 ≤ (randomFloat rng0).1 ∧ (randomFloat rng0).1 < 1) :=
  ⟨(readdir_listing 0 rng0).1, (readdir_listing 0 rng0).2 "/exist" rng0 (by decide)⟩

/-- C7: on every successful `getattr`, the fixed fields are constant:
`st_uid` is the process's real user id, `st_gid` its real group id,
`st_mode` is `S_IFDIR ||| 0o775`, and `st_nlink` is `1`. -/
theorem getattr_fixed_fields (uid gid : ℕ) (now : ℚ) (path : String)
    (fh : Option ℕ) (g : RNG) (h : (Exist._exists path g).1 = true) :
    ∃ attrs, (Exist.getattr uid gid now path fh g).1 = Except.ok attrs ∧
      attrs.lookup "st_uid" = some (AttrVal.i uid) ∧
      attrs.lookup "st_gid" = some (AttrVal.i gid) ∧
      attrs.lookup "st_mode" = some (AttrVal.i (S_IFDIR ||| 0o775)) ∧
      attrs.lookup "st_nlink" = some (AttrVal.i 1) := by
  simp only [Exist.getattr, h, not_true_eq_false, if_false, ite_false]
  exact ⟨_, rfl, rfl, rfl, rfl, rfl⟩

theorem getattr_fixed_fields_witness :
    ∃ attrs, (Exist.getattr 7 9 (mkRat 0 1) "/" none rng0).1 = Except.ok attrs ∧
      attrs.lookup "st_uid" = some (AttrVal.i 7) ∧
      attrs.lookup "st_gid" = some (AttrVal.i 9) ∧
      attrs.lookup "st_mode" = some (AttrVal.i (S_IFDIR ||| 0o775)) ∧
      attrs.lookup "st_nlink" = some (AttrVal.i 1) :=
  getattr_fixed_fields 7 9 (mkRat 0 1) "/" none rng0 (by decide)

/-- C8: `getattr` fails with `NotFound` exactly when the per-call existence
check returns `false`; when the check returns `true`, it returns an attribute
record with exactly the eight keys `st_atime`, `st_ctime`, `st_mtime`,
`st_gid`, `st_uid`, `st_mode`, `st_nlink`, `st_size`, in that order. -/
theorem getattr_notfound_iff (uid gid : ℕ) (now : ℚ) (path : String)
    (fh : Option ℕ) (g : RNG) :
    ((Exist.getattr uid gid now path fh g).1 = Except.error FuseError.ENOENT ↔
      (Exist._exists path g).1 = false) ∧
    ((Exist._exists path g).1 = true →
      ∃ attrs, (Exist.getattr uid gid now path fh g).1 = Except.ok attrs ∧
        attrs.map Prod.fst = ["st_atime", "st_ctime", "st_mtime", "st_gid",
          "st_uid", "st_mode", "st_nlink", "st_size"]) := by
  cases hB : (Exist._exists path g).1
  · simp [Exist.getattr, hB]
  · constructor
    · simp [Exist.getattr, hB]
    · intro _
      simp only [Exist.getattr, hB, not_true_eq_false, if_false, ite_false]
      exact ⟨_, rfl, rfl⟩

theorem getattr_notfound_iff_witness :
    ((Exist.getattr 0 0 (mkRat 0 1) "/" none rng0).1 = Except.error FuseError.ENOENT ↔
      (Exist._exists "/" rng0).1 = false) ∧
    (∃ attrs, (Exist.getattr 0 0 (mkRat 0 1) "/" none rng0).1 = Except.ok attrs ∧
      attrs.map Prod.fst = ["st_atime", "st_ctime", "st_mtime", "st_gid",
        "st_uid", "st_mode", "st_nlink", "st_size"]) :=
  ⟨(getattr_notfound_iff 0 0 (mkRat 0 1) "/" none rng0).1,
   (getattr_notfound_iff 0 0 (mkRat 0 1) "/" none rng0).2 (by decide)⟩

/-- C9: every operation other than `access`, `getattr`, `readdir`, `statfs`
has its handler attribute set to `None` in the source (the core provides no
handler and performs no work), and the host binding surfaces it as an
`Unsupported` failure. -/
theorem unsupported_operations (op : Exist.OpName)
    (h : op ≠ Exist.OpName.access ∧ op ≠ Exist.OpName.getattr ∧
         op ≠ Exist.OpName.readdir ∧ op ≠ Exist.OpName.statfs) :
    Exist.nullified op = true ∧
    Exist.hostDispatch op = some Exist.HostFailure.Unsupported := by
  obtain ⟨h1, h2, h3, h4⟩ := h
  cases op <;> simp_all [Exist.nullified, Exist.hostDispatch]

theorem unsupported_operations_witness :
    Exist.nullified Exist.OpName.create = true ∧
    Exist.hostDispatch Exist.OpName.create = some Exist.HostFailure.Unsupported :=
  unsupported_operations Exist.OpName.create (by decide)

/-- C10: the code paths that decide without randomness leave the random
source untouched — `_exists` on `"/"` and `"/exist"`, `_exists` on any path
that classifies invalid (wrong prefix, unparsable or out-of-range
probability), and `access` with write intent on a non-root path all return
with the source state equal to its state before; and exactly one draw is
consumed when a well-formed probability entry's existence is evaluated. -/
theorem random_source_frame (path : String) (mode : ℕ) (g : RNG) :
    (Exist._exists "/" g).2 = g ∧
    (Exist._exists "/exist" g).2 = g ∧
    (path ≠ "/" → path ≠ "/exist" →
      (path.toList.take 7 ≠ "/exist/".toList ∨
       pyFloatL (path.toList.drop 7) = none ∨
       ∃ p, pyFloatL (path.toList.drop 7) = some p ∧ ¬ (0 ≤ p ∧ p ≤ 1)) →
      (Exist._exists path g).2 = g) ∧
    (path ≠ "/" → path ≠ "/exist" → mode &&& W_OK ≠ 0 →
      (Exist.access path mode g).2 = g) ∧
    (∀ p, path ≠ "/" → path ≠ "/exist" →
      path.toList.take 7 = "/exist/".toList →
      pyFloatL (path.toList.drop 7) = some p → 0 ≤ p → p ≤ 1 →
      (Exist._exists path g).2 = ⟨g.stream, g.idx + 1⟩) := by
  refine ⟨by simp [Exist._exists], by simp [Exist._exists], ?_, ?_, ?_⟩
  · intro h1 h2 h
    rw [exists_invalid_core path g h1 h2 h]
  · intro h1 h2 hw
    unfold Exist.access
    rw [if_neg (by tauto), if_pos hw]
  · intro p h1 h2 h3 hp h0 hone
    rw [exists_prob_core path p g h1 h2 h3 hp ⟨h0, hone⟩]
    exact randomFloat_snd g

theorem random_source_frame_witness :
    (Exist._exists "/" rng0).2 = rng0 ∧
    (Exist._exists "/exist/abc" rng0).2 = rng0 ∧
    (Exist.access "/exist/0.5" 2 rng0).2 = rng0 ∧
    (Exist._exists "/exist/0.5" rng0).2 = ⟨rng0.stream, rng0.idx + 1⟩ :=
  ⟨(random_source_frame "/" 2 rng0).1,
   (random_source_frame "/exist/abc" 2 rng0).2.2.1 (by decide) (by decide)
      (Or.inr (Or.inl (by decide))),
   (random_source_frame "/exist/0.5" 2 rng0).2.2.2.1 (by decide) (by decide) (by decide),
   (random_source_frame "/exist/0.5" 2 rng0).2.2.2.2 (mkRat 1 2) (by decide) (by decide)
      (by decide) (by decide) (by decide) (by decide)⟩

/-- Sanity checks of the `float` parser model on the literal shapes the spec
discusses. -/
theorem pyFloat_evaluations :
    pyFloat "1" = some 1 ∧ pyFloat "1.0" = some 1 ∧ pyFloat "0" = some 0 ∧
    pyFloat "0.5" = some (mkRat 1 2) ∧ pyFloat "abc" = none ∧
    pyFloat "2" = some 2 ∧ pyFloat "-0.1" = some (mkRat (-1) 10) ∧
    pyFloat "1e-3" = some (mkRat 1 1000) ∧ pyFloat "" = none ∧
    pyFloat ".5" = some (mkRat 1 2) ∧ pyFloat "1." = some 1 ∧
    pyFloat "0.2_5" = some (mkRat 1 4) ∧ pyFloat "_5" = none := by
  decide

/-- Sanity checks of the classifier on representative paths. -/
theorem classify_evaluations :
    classify "/" = PathCategory.root ∧
    classify "/exist" = PathCategory.existDir ∧
    classify "/exist/0.5" = PathCategory.probabilityEntry (mkRat 1 2) ∧
    classify "/exist/abc" = PathCategory.invalid ∧
    classify "/exist/2" = PathCategory.invalid ∧
    classify "/foo" = PathCategory.invalid := by
  decide
